import Mathlib

/-!
Verification of the congratulator-bot data-synchronization core: a shallow
embedding, in Lean, of the score-table cell parser, the windowed ingestion
loop, the shared dashboard, and the periodic-task scheduling guard, together
with theorems settling the specified properties.

Modelling conventions:
- Rust f64 values are modelled as exact rationals; every numeric value the
  properties mention is exactly representable, and no rounding is involved.
- Rust i32 and i64 indices are modelled as Int. The window cursor advances by
  10 per step from small initial indices, far below the i32 bounds.
- std string-to-number parsing (str::parse for f64 and i32) is modelled by
  explicit decimal-numeral parsers over the character list: an optional sign,
  digits, and for f64 an optional fractional part. Exotic float spellings
  (exponents, inf, nan) are outside the fragment the program data uses.
- chrono NaiveDate parsing with format "%d.%m.%Y" is modelled by splitting at
  dots with calendar validation (month ranges, Gregorian leap years).
- std DefaultHasher is modelled by a fixed deterministic hash of the
  character codes; the properties rely only on the hash being a function of
  the hashed string.
-/

namespace CongratulatorBot

/-! ### Decimal numeral parsing (model of str::parse) -/

def digitVal (c : Char) : Nat := c.toNat - 48

/-- All-digit character lists denote a natural number; anything else is a
parse failure. Model of the digit-run part of std integer parsing. -/
def parseDigits (cs : List Char) : Option Nat :=
  if cs ≠ [] ∧ cs.all Char.isDigit then
    some (cs.foldl (fun a c => a * 10 + digitVal c) 0)
  else
    none

/-- Split a character list at every occurrence of the separator, keeping
empty pieces, as String.splitOn does for a one-character separator. -/
def splitOnChar (c : Char) : List Char → List (List Char)
  | [] => [[]]
  | x :: rest =>
    match splitOnChar c rest with
    | [] => [[x]]
    | h :: t => if x == c then [] :: h :: t else (x :: h) :: t

/-- Unsigned decimal body of a float numeral: digits, or digits.digits with
either side optionally empty (but not both). -/
def parseF64Body (cs : List Char) : Option ℚ :=
  match splitOnChar '.' cs with
  | [intPart] =>
    match parseDigits intPart with
    | some n => some ((n : ℚ))
    | none => none
  | [intPart, fracPart] =>
    if intPart.isEmpty && fracPart.isEmpty then none
    else
      match (if intPart.isEmpty then some 0 else parseDigits intPart),
            (if fracPart.isEmpty then some 0 else parseDigits fracPart) with
      | some ip, some fp => some ((ip : ℚ) + (fp : ℚ) / 10 ^ fracPart.length)
      | _, _ => none
  | _ => none

/-- Sign handling of the float numeral parse: an optional leading sign,
then an unsigned decimal body. -/
def parseF64List : List Char → Option ℚ
  | [] => parseF64Body []
  | c :: rest =>
    if c = '-' then (parseF64Body rest).map (fun q => -q)
    else if c = '+' then parseF64Body rest
    else parseF64Body (c :: rest)

/-- Model of str::parse for f64 on the decimal fragment. -/
def parseF64 (s : String) : Option ℚ :=
  parseF64List s.toList

/-- Model of str::parse for i32: optional sign, digits, i32 range check. -/
def parseI32 (cs : List Char) : Option Int :=
  let signed : (Int × List Char) :=
    match cs with
    | '-' :: rest => (-1, rest)
    | '+' :: rest => (1, rest)
    | _ => (1, cs)
  match parseDigits signed.2 with
  | some n =>
    let v : Int := signed.1 * n
    if -(2 ^ 31) ≤ v ∧ v ≤ 2 ^ 31 - 1 then some v else none
  | none => none

/-- Whitespace trimming on both ends, as str::trim. -/
def trimChars (cs : List Char) : List Char :=
  ((cs.dropWhile Char.isWhitespace).reverse.dropWhile Char.isWhitespace).reverse

def strTrim (s : String) : String := ⟨trimChars s.toList⟩

/-! ### Calendar dates (model of chrono NaiveDate) -/

structure NaiveDate where
  year : Int
  month : Nat
  day : Nat
deriving DecidableEq, Repr

/-- chrono NaiveDate::default is the Unix epoch day. -/
def NaiveDate.default : NaiveDate := ⟨1970, 1, 1⟩

def isLeapYear (y : Int) : Bool :=
  y % 4 == 0 && (y % 100 != 0 || y % 400 == 0)

def daysInMonth (y : Int) (m : Nat) : Nat :=
  if m = 2 then (if isLeapYear y then 29 else 28)
  else if m = 4 ∨ m = 6 ∨ m = 9 ∨ m = 11 then 30
  else 31

/-- Model of chrono NaiveDate::parse_from_str with format "%d.%m.%Y":
day.month.year with one- or two-digit day and month, four-digit year,
validated against the calendar. -/
def NaiveDate.parse_from_str (s : String) : Option NaiveDate :=
  match splitOnChar '.' s.toList with
  | [d, m, y] =>
    match parseDigits d, parseDigits m, parseDigits y with
    | some day, some month, some year =>
      if d.length ≤ 2 ∧ m.length ≤ 2 ∧ y.length = 4 ∧
         1 ≤ month ∧ month ≤ 12 ∧ 1 ≤ day ∧ day ≤ daysInMonth (year : Int) month then
        some ⟨(year : Int), month, day⟩
      else
        none
    | _, _, _ => none
  | _ => none

/-! ### Entities (src/dashboard/score_table/entities.rs) -/

/-- Model of std DefaultHasher applied to a name string: a fixed
deterministic accumulation of the character codes modulo 2 ^ 64. The
verified properties rely only on the id being a function of the name. -/
def defaultHash (name : String) : Nat :=
  name.toList.foldl (fun h c => (h * 31 + c.toNat) % 2 ^ 64) 5381

structure Person where
  id : Nat
  name : String
deriving DecidableEq, Repr

/-- Person::new hashes the name into the id field. -/
def Person.new (name : String) : Person :=
  { id := defaultHash name, name := name }

/-- The PartialEq impl for Person: ids and names both equal. -/
def Person.eq (a b : Person) : Bool :=
  a.id == b.id && a.name == b.name

structure Percentage where
  value : Int
deriving DecidableEq, Repr

def Percentage.fromValue (value : Int) : Percentage := ⟨value⟩

structure Scores where
  sport : ℚ
  professional_growth : ℚ
  health : ℚ
  spiritual_growth : ℚ
  foreign_language : ℚ
  personal_dev : ℚ
deriving DecidableEq, Repr

def Scores.UNITITIALIZED_SCORE : ℚ := 0

def Scores.set_sport (s : Scores) (value : ℚ) : Scores :=
  { s with sport := value }

def Scores.set_professional_growth (s : Scores) (value : ℚ) : Scores :=
  { s with professional_growth := value }

def Scores.set_health (s : Scores) (value : ℚ) : Scores :=
  { s with health := value }

def Scores.set_spiritual_growth (s : Scores) (value : ℚ) : Scores :=
  { s with spiritual_growth := value }

def Scores.set_foreign_language (s : Scores) (value : ℚ) : Scores :=
  { s with foreign_language := value }

def Scores.set_personal_dev (s : Scores) (value : ℚ) : Scores :=
  { s with personal_dev := value }

/-- Scores::total exactly as the source writes it: note that the source
adds personal_dev twice and never adds professional_growth. -/
def Scores.total (s : Scores) : ℚ :=
  s.sport + s.personal_dev + s.health + s.spiritual_growth + s.foreign_language + s.personal_dev

/-- The Default impl for Scores: every category uninitialized. -/
def Scores.defaultScores : Scores :=
  { sport := Scores.UNITITIALIZED_SCORE
    professional_growth := Scores.UNITITIALIZED_SCORE
    health := Scores.UNITITIALIZED_SCORE
    spiritual_growth := Scores.UNITITIALIZED_SCORE
    foreign_language := Scores.UNITITIALIZED_SCORE
    personal_dev := Scores.UNITITIALIZED_SCORE }

/-! ### Parse errors (src/dashboard/score_table/error.rs)

The payloads that only describe the failure (std error kinds, static
messages) are modelled by the message strings the source carries, or
dropped when the payload is an opaque std error value. -/

inductive ParseError where
  | DateParseError
  | ScoreParseError (index : Nat)
  | PercentParseError
deriving DecidableEq, Repr

inductive InvalidCell where
  | InvalidDateCell (msg : String)
  | InvalidPercentCell (msg : String)
deriving DecidableEq, Repr

inductive Empty where
  | EmptyEffectiveFormat (index : Nat)
  | EmptyFormattedValue (index : Nat)
deriving DecidableEq, Repr

inductive ScoreTableRecordError where
  | UnexpectedFieldIndex (index : Nat)
  | ParseError (kind : ParseError)
  | InvalidCell (kind : InvalidCell)
  | Empty (kind : Empty)
  | Unknown (msg : String)
deriving DecidableEq, Repr

/-! ### Sheet cells (the google_sheets4 CellData fragment the parser reads) -/

structure NumberFormat where
  type_ : Option String
deriving DecidableEq, Repr

structure CellFormat where
  number_format : Option NumberFormat
deriving DecidableEq, Repr

structure ExtendedValue where
  number_value : Option ℚ
deriving DecidableEq, Repr

structure CellData where
  formatted_value : Option String
  effective_value : Option ExtendedValue
  effective_format : Option CellFormat
deriving DecidableEq, Repr

/-! ### Score table records (src/dashboard/score_table/mod.rs) -/

structure ScoreTableRecord where
  date : NaiveDate
  scores : Scores
  total_score : ℚ
  percent : Percentage
deriving DecidableEq, Repr

def ScoreTableRecord.new (date : NaiveDate) (scores : Scores) (total_score : ℚ)
    (percent : Percentage) : ScoreTableRecord :=
  { date := date, scores := scores, total_score := total_score, percent := percent }

/-- The Default impl for ScoreTableRecord (derived field-wise). -/
def ScoreTableRecord.defaultRecord : ScoreTableRecord :=
  ScoreTableRecord.new NaiveDate.default Scores.defaultScores
    Scores.UNITITIALIZED_SCORE (Percentage.fromValue 0)

/-- A record has a total iff its total score differs from the sentinel. -/
def ScoreTableRecord.has_total (rec : ScoreTableRecord) : Bool :=
  rec.total_score != Scores.UNITITIALIZED_SCORE

/-- ScoreTableRecord::parse_date. The source unwraps the number-format type
and so has a Rust panic when the type field is absent; the panic path is
modelled as the Unknown error (no property exercises it). -/
def ScoreTableRecord.parse_date (cell : CellData) : Except ScoreTableRecordError NaiveDate :=
  match cell.effective_format with
  | none => .error (.Empty (.EmptyEffectiveFormat 0))
  | some cell_format =>
    match cell_format.number_format with
    | some nf =>
      match nf.type_ with
      | none => .error (.Unknown "unwrap of absent number format type")
      | some type_ =>
        if type_ = "DATE" then
          match cell.formatted_value with
          | none => .error (.InvalidCell (.InvalidDateCell "can_t be empty formatted value for date"))
          | some formatted_value =>
            match NaiveDate.parse_from_str formatted_value with
            | some date => .ok date
            | none => .error (.ParseError .DateParseError)
        else
          .error (.InvalidCell (.InvalidDateCell "google API cell type is other than DATE"))
    | none => .error (.InvalidCell (.InvalidDateCell "date cell should have NumberFormat"))

/-- ScoreTableRecord::parse_percentage: formatted value must end in a
percent sign, stripped and parsed as i32; an absent value yields 0. -/
def ScoreTableRecord.parse_percentage (cell : CellData) : Except ScoreTableRecordError Percentage :=
  match cell.formatted_value with
  | some value =>
    if value.toList.getLast? ≠ some '%' then
      .error (.InvalidCell (.InvalidPercentCell "percent cell should end up with %"))
    else
      match parseI32 value.toList.dropLast with
      | some v => .ok (Percentage.fromValue v)
      | none => .error (.ParseError .PercentParseError)
  | none => .ok (Percentage.fromValue 0)

/-- ScoreTableRecord::parse_score: first the formatted value is parsed as a
float (absent counts as the uninitialized score); only when that parse
fails is the underlying effective number value consulted. -/
def ScoreTableRecord.parse_score (cell : CellData) (index : Nat) : Except ScoreTableRecordError ℚ :=
  let score : Option ℚ :=
    match cell.formatted_value with
    | some value => parseF64 value
    | none => some Scores.UNITITIALIZED_SCORE
  match score with
  | some value => .ok value
  | none =>
    let derived_error := ScoreTableRecordError.ParseError (.ScoreParseError index)
    match cell.effective_value with
    | some effective_value =>
      match effective_value.number_value with
      | some n => .ok n
      | none => .error derived_error
    | none => .error derived_error

/-- The cell loop of ScoreTableRecord::from_vec, with the running state as
arguments; the 1..=7 arm of the source and the inner match on the same
index are flattened into one arm per index. -/
def ScoreTableRecord.from_vec_go (i : Nat) (cells : List CellData) (date : NaiveDate)
    (scores : Scores) (total_score : ℚ) (percent : Percentage) :
    Except ScoreTableRecordError ScoreTableRecord :=
  match cells with
  | [] => .ok (ScoreTableRecord.new date scores total_score percent)
  | cell :: rest =>
    match i with
    | 0 =>
      match ScoreTableRecord.parse_date cell with
      | .ok d => ScoreTableRecord.from_vec_go (i + 1) rest d scores total_score percent
      | .error e => .error e
    | 1 =>
      match ScoreTableRecord.parse_score cell i with
      | .ok v => ScoreTableRecord.from_vec_go (i + 1) rest date (scores.set_sport v) total_score percent
      | .error e => .error e
    | 2 =>
      match ScoreTableRecord.parse_score cell i with
      | .ok v => ScoreTableRecord.from_vec_go (i + 1) rest date (scores.set_professional_growth v) total_score percent
      | .error e => .error e
    | 3 =>
      match ScoreTableRecord.parse_score cell i with
      | .ok v => ScoreTableRecord.from_vec_go (i + 1) rest date (scores.set_health v) total_score percent
      | .error e => .error e
    | 4 =>
      match ScoreTableRecord.parse_score cell i with
      | .ok v => ScoreTableRecord.from_vec_go (i + 1) rest date (scores.set_spiritual_growth v) total_score percent
      | .error e => .error e
    | 5 =>
      match ScoreTableRecord.parse_score cell i with
      | .ok v => ScoreTableRecord.from_vec_go (i + 1) rest date (scores.set_foreign_language v) total_score percent
      | .error e => .error e
    | 6 =>
      match ScoreTableRecord.parse_score cell i with
      | .ok v => ScoreTableRecord.from_vec_go (i + 1) rest date (scores.set_personal_dev v) total_score percent
      | .error e => .error e
    | 7 =>
      match ScoreTableRecord.parse_score cell i with
      | .ok v => ScoreTableRecord.from_vec_go (i + 1) rest date scores v percent
      | .error e => .error e
    | 8 =>
      match ScoreTableRecord.parse_percentage cell with
      | .ok p => ScoreTableRecord.from_vec_go (i + 1) rest date scores total_score p
      | .error e => .error e
    | _ => .error (.UnexpectedFieldIndex i)

/-- ScoreTableRecord::from_vec: fold the row into a record starting from
the default field values. -/
def ScoreTableRecord.from_vec (row : List CellData) : Except ScoreTableRecordError ScoreTableRecord :=
  ScoreTableRecord.from_vec_go 0 row NaiveDate.default Scores.defaultScores
    Scores.UNITITIALIZED_SCORE (Percentage.fromValue 0)

structure ScoreTable where
  person : Person
  table : List ScoreTableRecord
deriving DecidableEq, Repr

def ScoreTable.new (person : Person) (table : List ScoreTableRecord) : ScoreTable :=
  { person := person, table := table }

deriving instance DecidableEq for Except

/-! ### Hub errors (src/api/error.rs) -/

inductive InvalidFetchedData where
  | EmptySheets
  | EmptyGridData
  | EmptyRowData
  | EmptyCellData
  | EmptyFormattedValue
  | EmptyPersonNameCell
  | InvalidVectorSize
  | NotFoundSheetId (title : String)
deriving DecidableEq, Repr

inductive AsyncSheetsHubError where
  | ScoreTableRecordError (err : ScoreTableRecordError)
  | InvalidFetchedData (kind : InvalidFetchedData)
  | Unknown (msg : String)
deriving DecidableEq, Repr

/-! ### Fetched spreadsheet shape (the google_sheets4 fragment the hub reads) -/

structure RowData where
  values : Option (List CellData)
deriving DecidableEq, Repr

structure GridData where
  row_data : Option (List RowData)
deriving DecidableEq, Repr

structure Sheet where
  data : Option (List GridData)
deriving DecidableEq, Repr

structure Spreadsheet where
  sheets : Option (List Sheet)
deriving DecidableEq, Repr

/-! ### Window cursor (src/api/requests.rs) -/

structure ScoreTableRequest where
  start_column_index : Int
  end_column_index : Int
  start_row_index : Int
  end_row_index : Int
  sheet_id : Int
  include_grid_data : Bool
deriving DecidableEq, Repr

namespace ScoreTableRequest

def COLUMN_OFFSET : Int := 10
def INITIAL_START_COLUMN_INDEX : Int := 1
def INITIAL_END_COLUMN_INDEX : Int := 10
def INITIAL_START_ROW_INDEX : Int := 3
def INITIAL_END_ROW_INDEX : Int := 35

def new (sheet_id : Int) (include_grid_data : Bool) : ScoreTableRequest :=
  { start_column_index := INITIAL_START_COLUMN_INDEX
    end_column_index := INITIAL_END_COLUMN_INDEX
    start_row_index := INITIAL_START_ROW_INDEX
    end_row_index := INITIAL_END_ROW_INDEX
    sheet_id := sheet_id
    include_grid_data := include_grid_data }

/-- ScoreTableRequest::next_table_request: shift both column bounds by the
fixed offset. -/
def next_table_request (r : ScoreTableRequest) : ScoreTableRequest :=
  { r with
    start_column_index := r.start_column_index + COLUMN_OFFSET
    end_column_index := r.end_column_index + COLUMN_OFFSET }

end ScoreTableRequest

/-! ### The hub (src/api/mod.rs) -/

/-- The record-collecting loop of AsyncSheetsHub::fetch_score_table over the
rows after the name row: a row with absent values is the EmptyCellData
failure; a parse failure is either downgraded to the default record or
propagated, by the skip_parse_errors flag. -/
def collect_records (skip_parse_errors : Bool) :
    List (Except AsyncSheetsHubError (List CellData)) →
    Except AsyncSheetsHubError (List ScoreTableRecord)
  | [] => .ok []
  | rowE :: rest =>
    match rowE with
    | .error e => .error e
    | .ok row =>
      let parsed : Except AsyncSheetsHubError ScoreTableRecord :=
        match ScoreTableRecord.from_vec row with
        | .ok r => .ok r
        | .error err =>
          if skip_parse_errors then .ok ScoreTableRecord.defaultRecord
          else .error (.ScoreTableRecordError err)
      match parsed with
      | .ok new_record =>
        match collect_records skip_parse_errors rest with
        | .ok records => .ok (new_record :: records)
        | .error e => .error e
      | .error e => .error e

/-- AsyncSheetsHub::fetch_score_table, on the spreadsheet the remote fetch
returned for the current window: unwrap the nested structure (each absence
its own failure), read the first row first cell as the person name, parse
the remaining rows as records. -/
def fetch_score_table (resp : Spreadsheet) (skip_parse_errors : Bool) :
    Except AsyncSheetsHubError ScoreTable :=
  match resp.sheets with
  | none => .error (.InvalidFetchedData .EmptySheets)
  | some sheets =>
    if sheets.length ≠ 1 then .error (.InvalidFetchedData .InvalidVectorSize)
    else
      match sheets with
      | [] => .error (.InvalidFetchedData .EmptySheets)
      | first_sheet :: _ =>
        match first_sheet.data with
        | none => .error (.InvalidFetchedData .EmptyGridData)
        | some grid_data_vec =>
          match grid_data_vec with
          | [] => .error (.InvalidFetchedData .EmptyGridData)
          | first_grid_data :: _ =>
            match first_grid_data.row_data with
            | none => .error (.InvalidFetchedData .EmptyRowData)
            | some row_data =>
              let table := row_data.map (fun d =>
                match d.values with
                | some vs => Except.ok vs
                | none => Except.error (AsyncSheetsHubError.InvalidFetchedData .EmptyCellData))
              match table with
              | [] => .error (.InvalidFetchedData .EmptyCellData)
              | first :: table_rest =>
                match first with
                | .error e => .error e
                | .ok cell_vec =>
                  match cell_vec with
                  | [] => .error (.InvalidFetchedData .EmptyCellData)
                  | first_cell :: _ =>
                    match first_cell.formatted_value with
                    | none => .error (.InvalidFetchedData .EmptyPersonNameCell)
                    | some value =>
                      let person := Person.new (strTrim value)
                      match collect_records skip_parse_errors table_rest with
                      | .ok records => .ok (ScoreTable.new person records)
                      | .error e => .error e

/-! ### Dashboard (src/dashboard/mod.rs) -/

structure Dashboard where
  score_tables : Option (List ScoreTable)
deriving DecidableEq, Repr

def Dashboard.newDashboard : Dashboard := { score_tables := none }

/-- Dashboard::from. -/
def Dashboard.fromTables (score_tables : List ScoreTable) : Dashboard :=
  { score_tables := some score_tables }

/-- Dashboard::initialize, as the pair (returned flag, dashboard after the
call): set the tables when none are held yet, otherwise reject. -/
def Dashboard.initialize (d : Dashboard) (score_tables : List ScoreTable) : Bool × Dashboard :=
  match d.score_tables with
  | none => (true, { d with score_tables := some score_tables })
  | some _ => (false, d)

/-- The loop of AsyncSheetsHub::fetch_dashboard over the successive window
responses of the remote source (one spreadsheet per window, the cursor
advancing between iterations): an EmptyPersonNameCell failure ends the loop
with the dashboard of the tables accumulated so far, any other failure
aborts, and a parsed table is appended. The result is none when the modelled
response sequence is exhausted before the loop ends. -/
def fetch_dashboard_loop : List Spreadsheet → List ScoreTable →
    Option (Except AsyncSheetsHubError Dashboard)
  | [], _ => none
  | resp :: rest, tables =>
    match fetch_score_table resp false with
    | .ok score_table => fetch_dashboard_loop rest (tables ++ [score_table])
    | .error (.InvalidFetchedData .EmptyPersonNameCell) =>
      some (.ok (Dashboard.fromTables tables))
    | .error err => some (.error err)

/-! ### Periodic tasks (src/bot/tasks.rs) -/

structure PeriodicTimeUtc where
  time : Nat
deriving DecidableEq, Repr

/-- A spawned job handle, observed through is_finished only. -/
structure TaskHandle where
  is_finished : Bool
deriving DecidableEq, Repr

/-- The state a PeriodicTask holds for the scheduling protocol: the
scheduled time and the handle of the last submitted job. -/
structure PeriodicTaskState where
  when : Option PeriodicTimeUtc
  handle : Option TaskHandle
deriving DecidableEq, Repr

/-- PeriodicTask::is_finished: a task with no handle counts as finished. -/
def PeriodicTask.is_finished (s : PeriodicTaskState) : Bool :=
  match s.handle with
  | some h => h.is_finished
  | none => true

/-- PeriodicTask::schedule, as the pair (returned flag, state after the
call), over the submit_job implementation of the concrete task: a task whose
previous run has not finished is rejected before submit_job runs. -/
def PeriodicTask.schedule
    (submit_job : PeriodicTaskState → PeriodicTimeUtc → PeriodicTaskState)
    (s : PeriodicTaskState) (w : PeriodicTimeUtc) : Bool × PeriodicTaskState :=
  if ! PeriodicTask.is_finished s then (false, s)
  else (true, submit_job s w)

/-- PeriodicDataFetcher::do_update, as its effect on the shared dashboard
value: the fetch result stands for hub.fetch_dashboard(); a fetch error
returns with the shared value untouched, a fetched dashboard replaces the
shared value under the write lock. -/
def PeriodicDataFetcher.do_update (fetch_result : Except AsyncSheetsHubError Dashboard)
    (shared : Dashboard) : Dashboard :=
  match fetch_result with
  | .error _ => shared
  | .ok latest_dashboard => latest_dashboard

/-! ### Concrete inputs for the evaluations below -/

/-- The record total as the data-model sentence of the spec states it: the
sum of the six category scores, each counted once. Kept separate from
Scores.total, which is the source computation. -/
def Scores.spec_total (s : Scores) : ℚ :=
  s.sport + s.professional_growth + s.health + s.spiritual_growth + s.foreign_language + s.personal_dev

/-- A Scores value separating the source total from the spec total: a
nonzero professional_growth (dropped by the source) and a nonzero
personal_dev (added twice by the source). -/
def scoresBugInput : Scores :=
  { sport := 0, professional_growth := 1, health := 0, spiritual_growth := 0
    foreign_language := 0, personal_dev := 2 }

/-- A DATE-typed cell formatted 01.03.2024. -/
def dateCell : CellData :=
  { formatted_value := some "01.03.2024"
    effective_value := none
    effective_format := some { number_format := some { type_ := some "DATE" } } }

/-- A plain score cell carrying only a formatted value. -/
def scoreCell (s : String) : CellData :=
  { formatted_value := some s, effective_value := none, effective_format := none }

/-- The percentage cell formatted 60%. -/
def percentCell : CellData :=
  { formatted_value := some "60%", effective_value := none, effective_format := none }

/-- The example row of the spec: date, six categories, total, percentage. -/
def exampleRow : List CellData :=
  [dateCell, scoreCell "5", scoreCell "3", scoreCell "4", scoreCell "2",
   scoreCell "1", scoreCell "0", scoreCell "15", percentCell]

/-- The record the example row denotes. -/
def exampleRecord : ScoreTableRecord :=
  ScoreTableRecord.new ⟨2024, 3, 1⟩
    { sport := 5, professional_growth := 3, health := 4, spiritual_growth := 2
      foreign_language := 1, personal_dev := 0 }
    15 (Percentage.fromValue 60)

/-- A score cell whose formatted value is a negative numeral. -/
def negScoreCell : CellData :=
  { formatted_value := some "-1", effective_value := none, effective_format := none }

/-- A row that parses successfully into a record with a negative sport
score. -/
def negRow : List CellData := [dateCell, negScoreCell]

/-- The record negRow denotes. -/
def negRecord : ScoreTableRecord :=
  ScoreTableRecord.new ⟨2024, 3, 1⟩
    { sport := -1, professional_growth := 0, health := 0, spiritual_growth := 0
      foreign_language := 0, personal_dev := 0 }
    0 (Percentage.fromValue 0)

/-- A score cell that cannot introduce a negative value: its formatted
value, when present, does not begin with a minus sign, and its effective
number value, when present, is nonnegative. -/
def SafeScoreCell (cell : CellData) : Bool :=
  (match cell.formatted_value with
   | some v => v.toList.head? != some '-'
   | none => true) &&
  (match cell.effective_value with
   | some ev =>
     match ev.number_value with
     | some n => decide (0 ≤ n)
     | none => true
   | none => true)

/-- All six category scores nonnegative. -/
def NonnegScores (s : Scores) : Prop :=
  0 ≤ s.sport ∧ 0 ≤ s.professional_growth ∧ 0 ≤ s.health ∧
  0 ≤ s.spiritual_growth ∧ 0 ≤ s.foreign_language ∧ 0 ≤ s.personal_dev

/-- A short row of minus-free cells. -/
def nonnegWitnessRow : List CellData := [dateCell, scoreCell "5"]

/-- The record nonnegWitnessRow denotes. -/
def nonnegWitnessRec : ScoreTableRecord :=
  ScoreTableRecord.new ⟨2024, 3, 1⟩
    { sport := 5, professional_growth := 0, health := 0, spiritual_growth := 0
      foreign_language := 0, personal_dev := 0 }
    0 (Percentage.fromValue 0)

/-- A one-row single-sheet response whose single cell is the given one. -/
def blockOfCell (cell : CellData) : Spreadsheet :=
  { sheets := some [{ data := some [{ row_data := some [{ values := some [cell] }] }] }] }

/-- A block whose name cell holds the empty string (present but empty). -/
def blockEmptyName : Spreadsheet :=
  blockOfCell { formatted_value := some "", effective_value := none, effective_format := none }

/-- A block whose name cell holds no formatted value at all. -/
def blockAbsentName : Spreadsheet :=
  blockOfCell { formatted_value := none, effective_value := none, effective_format := none }

/-! ### Theorems -/

/-- C1: the derived Scores total is claimed to be the sum of the six
category scores with each counted exactly once; on the input with
professional_growth 1 and personal_dev 2 the source computation yields 4
(personal_dev counted twice, professional_growth dropped) while the claimed
sum of the categories is 3. -/
theorem scores_total_double_counts_personal_dev :
    Scores.total scoresBugInput = 4 ∧ Scores.spec_total scoresBugInput = 3 ∧ (4 : ℚ) ≠ 3 := by
  refine ⟨?_, ?_, by norm_num⟩ <;> norm_num [Scores.total, Scores.spec_total, scoresBugInput]

/-- C4: one run of the data-fetcher update leaves the shared dashboard
unchanged whenever the fetch ends in an error, and replaces it with the
fetched dashboard exactly when the fetch succeeds. -/
theorem do_update_replace_or_nothing :
    (∀ (err : AsyncSheetsHubError) (shared : Dashboard),
      PeriodicDataFetcher.do_update (.error err) shared = shared) ∧
    (∀ (latest shared : Dashboard),
      PeriodicDataFetcher.do_update (.ok latest) shared = latest) :=
  ⟨fun _ _ => rfl, fun _ _ => rfl⟩

/-- C5: scheduling a periodic task whose previous run has not finished
returns false and returns the state unchanged, whatever the submit_job
implementation and the requested time. -/
theorem schedule_overlap_guard
    (submit_job : PeriodicTaskState → PeriodicTimeUtc → PeriodicTaskState)
    (s : PeriodicTaskState) (w : PeriodicTimeUtc)
    (h : PeriodicTask.is_finished s = false) :
    PeriodicTask.schedule submit_job s w = (false, s) := by
  simp [PeriodicTask.schedule, h]

/-- C5 witness: a task holding an unfinished handle is rejected. -/
theorem schedule_overlap_guard_witness :
    PeriodicTask.schedule (fun s _ => s) ⟨none, some ⟨false⟩⟩ ⟨0⟩
      = (false, ⟨none, some ⟨false⟩⟩) :=
  schedule_overlap_guard (fun s _ => s) ⟨none, some ⟨false⟩⟩ ⟨0⟩ (by decide)

/-- C6: the example row parses into the record with date 2024-03-01, the
six category scores 5, 3, 4, 2, 1, 0 in column order, total 15 and
percentage 60, and that record has a total. -/
theorem from_vec_example_row :
    ScoreTableRecord.from_vec exampleRow = .ok exampleRecord ∧
    exampleRecord.has_total = true := by
  refine ⟨by decide, by decide⟩

/-- C8: n applications of the window-cursor advance add exactly n times the
fixed offset 10 to both column bounds, leave both row bounds unchanged, and
the column bounds are strictly increasing step over step. -/
theorem next_table_request_iterate (r : ScoreTableRequest) (n : Nat) :
    (ScoreTableRequest.next_table_request^[n] r).start_column_index
        = r.start_column_index + 10 * n ∧
    (ScoreTableRequest.next_table_request^[n] r).end_column_index
        = r.end_column_index + 10 * n ∧
    (ScoreTableRequest.next_table_request^[n] r).start_row_index = r.start_row_index ∧
    (ScoreTableRequest.next_table_request^[n] r).end_row_index = r.end_row_index ∧
    (ScoreTableRequest.next_table_request^[n] r).start_column_index
        < (ScoreTableRequest.next_table_request^[n + 1] r).start_column_index ∧
    (ScoreTableRequest.next_table_request^[n] r).end_column_index
        < (ScoreTableRequest.next_table_request^[n + 1] r).end_column_index := by
  have key : ∀ m : Nat,
      (ScoreTableRequest.next_table_request^[m] r).start_column_index
          = r.start_column_index + 10 * m ∧
      (ScoreTableRequest.next_table_request^[m] r).end_column_index
          = r.end_column_index + 10 * m ∧
      (ScoreTableRequest.next_table_request^[m] r).start_row_index = r.start_row_index ∧
      (ScoreTableRequest.next_table_request^[m] r).end_row_index = r.end_row_index := by
    intro m
    induction m with
    | zero => simp
    | succ k ih =>
      rw [Function.iterate_succ_apply']
      refine ⟨?_, ?_, ?_, ?_⟩ <;>
        simp [ScoreTableRequest.next_table_request, ScoreTableRequest.COLUMN_OFFSET,
          ih.1, ih.2.1, ih.2.2.1, ih.2.2.2] <;> omega
  refine ⟨(key n).1, (key n).2.1, (key n).2.2.1, (key n).2.2.2, ?_, ?_⟩
  · rw [(key n).1, (key (n + 1)).1]; omega
  · rw [(key n).2.1, (key (n + 1)).2.1]; omega

/-- C9: initializing a dashboard that holds no snapshot installs the given
tables and returns true; initializing one that already holds a snapshot
returns false and keeps the held snapshot. -/
theorem initialize_at_most_once :
    (∀ tables : List ScoreTable,
      Dashboard.initialize ⟨none⟩ tables = (true, ⟨some tables⟩)) ∧
    (∀ (held tables : List ScoreTable),
      Dashboard.initialize ⟨some held⟩ tables = (false, ⟨some held⟩)) :=
  ⟨fun _ => rfl, fun _ _ => rfl⟩

/-- C10: two persons built by Person::new compare equal under the PartialEq
implementation exactly when their names are equal, the id being a function
of the name. -/
theorem person_new_eq_iff_names_eq (a b : String) :
    Person.eq (Person.new a) (Person.new b) = true ↔ a = b := by
  constructor
  · intro h
    simp only [Person.eq, Person.new, Bool.and_eq_true, beq_iff_eq] at h
    exact h.2
  · rintro rfl
    simp [Person.eq]

/-- A successful unsigned decimal body is nonnegative. -/
theorem parseF64Body_nonneg (cs : List Char) (q : ℚ) (h : parseF64Body cs = some q) :
    0 ≤ q := by
  rw [parseF64Body] at h
  rcases hsplit : splitOnChar '.' cs with _ | ⟨intPart, _ | ⟨fracPart, _ | _⟩⟩ <;>
    simp only [hsplit] at h
  · exact absurd h (by simp)
  · rcases hd : parseDigits intPart with _ | n <;> simp only [hd] at h
    · exact absurd h (by simp)
    · injection h with h2
      subst h2
      exact Nat.cast_nonneg n
  · split at h
    · exact absurd h (by simp)
    · split at h
      · injection h with h2
        subst h2
        positivity
      · exact absurd h (by simp)
  · exact absurd h (by simp)

/-- A float numeral not beginning with a minus sign parses to a
nonnegative value. -/
theorem parseF64_nonneg (s : String) (q : ℚ)
    (hneg : s.toList.head? ≠ some '-') (h : parseF64 s = some q) : 0 ≤ q := by
  rw [parseF64] at h
  rcases hs : s.toList with _ | ⟨c, rest⟩ <;> rw [hs] at h hneg
  · rw [show parseF64List [] = parseF64Body [] from rfl] at h
    exact parseF64Body_nonneg _ _ h
  · have hc : c ≠ '-' := by simpa using hneg
    simp only [parseF64List] at h
    rw [if_neg hc] at h
    by_cases hp : c = '+'
    · rw [if_pos hp] at h
      exact parseF64Body_nonneg _ _ h
    · rw [if_neg hp] at h
      exact parseF64Body_nonneg _ _ h

/-- parse_score of a safe cell never returns a negative value. -/
theorem parse_score_nonneg (cell : CellData) (index : Nat) (q : ℚ)
    (hsafe : SafeScoreCell cell = true)
    (h : ScoreTableRecord.parse_score cell index = .ok q) : 0 ≤ q := by
  rcases cell with ⟨fv, ev, ef⟩
  simp only [SafeScoreCell, Bool.and_eq_true] at hsafe
  obtain ⟨hs1, hs2⟩ := hsafe
  rcases fv with _ | v
  · simp only [ScoreTableRecord.parse_score, Scores.UNITITIALIZED_SCORE,
      Except.ok.injEq] at h
    exact h ▸ le_refl 0
  · rcases hq : parseF64 v with _ | q'
    · simp only [ScoreTableRecord.parse_score, hq] at h
      rcases ev with _ | ⟨nv⟩
      · exact absurd h (by simp)
      · rcases nv with _ | n
        · exact absurd h (by simp)
        · simp only [Except.ok.injEq] at h
          simp only [decide_eq_true_eq] at hs2
          exact h ▸ hs2
    · simp only [ScoreTableRecord.parse_score, hq, Except.ok.injEq] at h
      have hhead : v.toList.head? ≠ some '-' := by simpa using hs1
      exact h ▸ parseF64_nonneg v q' hhead hq

/-- The cell loop preserves nonnegativity of the running category scores:
with every remaining cell safe, a state whose scores are nonnegative can
only produce a record whose scores are nonnegative. -/
theorem from_vec_go_nonneg (cells : List CellData) :
    ∀ (i : Nat) (date : NaiveDate) (scores : Scores) (total_score : ℚ)
      (percent : Percentage) (rec : ScoreTableRecord),
      (∀ cell ∈ cells, SafeScoreCell cell = true) → NonnegScores scores →
      ScoreTableRecord.from_vec_go i cells date scores total_score percent = .ok rec →
      NonnegScores rec.scores := by
  induction cells with
  | nil =>
    intro i date scores total_score percent rec _ hs hok
    simp only [ScoreTableRecord.from_vec_go, Except.ok.injEq] at hok
    rw [← hok]
    exact hs
  | cons cell rest ih =>
    intro i date scores total_score percent rec hsafe hs hok
    have hcell : SafeScoreCell cell = true := hsafe cell (by simp)
    have hrest : ∀ c ∈ rest, SafeScoreCell c = true := fun c hc => hsafe c (by simp [hc])
    obtain ⟨s1, s2, s3, s4, s5, s6⟩ := hs
    rcases i with _ | _ | _ | _ | _ | _ | _ | _ | _ | j
    · simp only [ScoreTableRecord.from_vec_go] at hok
      rcases hpd : ScoreTableRecord.parse_date cell with e | d <;> simp only [hpd] at hok
      · exact absurd hok (by simp)
      · refine ih _ _ _ _ _ _ hrest ?_ hok
        exact ⟨s1, s2, s3, s4, s5, s6⟩
    · simp only [ScoreTableRecord.from_vec_go] at hok
      rcases hps : ScoreTableRecord.parse_score cell 1 with e | v <;> simp only [hps] at hok
      · exact absurd hok (by simp)
      · have hv := parse_score_nonneg cell 1 v hcell hps
        refine ih _ _ _ _ _ _ hrest ?_ hok
        exact ⟨hv, s2, s3, s4, s5, s6⟩
    · simp only [ScoreTableRecord.from_vec_go] at hok
      rcases hps : ScoreTableRecord.parse_score cell 2 with e | v <;> simp only [hps] at hok
      · exact absurd hok (by simp)
      · have hv := parse_score_nonneg cell 2 v hcell hps
        refine ih _ _ _ _ _ _ hrest ?_ hok
        exact ⟨s1, hv, s3, s4, s5, s6⟩
    · simp only [ScoreTableRecord.from_vec_go] at hok
      rcases hps : ScoreTableRecord.parse_score cell 3 with e | v <;> simp only [hps] at hok
      · exact absurd hok (by simp)
      · have hv := parse_score_nonneg cell 3 v hcell hps
        refine ih _ _ _ _ _ _ hrest ?_ hok
        exact ⟨s1, s2, hv, s4, s5, s6⟩
    · simp only [ScoreTableRecord.from_vec_go] at hok
      rcases hps : ScoreTableRecord.parse_score cell 4 with e | v <;> simp only [hps] at hok
      · exact absurd hok (by simp)
      · have hv := parse_score_nonneg cell 4 v hcell hps
        refine ih _ _ _ _ _ _ hrest ?_ hok
        exact ⟨s1, s2, s3, hv, s5, s6⟩
    · simp only [ScoreTableRecord.from_vec_go] at hok
      rcases hps : ScoreTableRecord.parse_score cell 5 with e | v <;> simp only [hps] at hok
      · exact absurd hok (by simp)
      · have hv := parse_score_nonneg cell 5 v hcell hps
        refine ih _ _ _ _ _ _ hrest ?_ hok
        exact ⟨s1, s2, s3, s4, hv, s6⟩
    · simp only [ScoreTableRecord.from_vec_go] at hok
      rcases hps : ScoreTableRecord.parse_score cell 6 with e | v <;> simp only [hps] at hok
      · exact absurd hok (by simp)
      · have hv := parse_score_nonneg cell 6 v hcell hps
        refine ih _ _ _ _ _ _ hrest ?_ hok
        exact ⟨s1, s2, s3, s4, s5, hv⟩
    · simp only [ScoreTableRecord.from_vec_go] at hok
      rcases hps : ScoreTableRecord.parse_score cell 7 with e | v <;> simp only [hps] at hok
      · exact absurd hok (by simp)
      · refine ih _ _ _ _ _ _ hrest ?_ hok
        exact ⟨s1, s2, s3, s4, s5, s6⟩
    · simp only [ScoreTableRecord.from_vec_go] at hok
      rcases hpp : ScoreTableRecord.parse_percentage cell with e | p <;> simp only [hpp] at hok
      · exact absurd hok (by simp)
      · refine ih _ _ _ _ _ _ hrest ?_ hok
        exact ⟨s1, s2, s3, s4, s5, s6⟩
    · simp only [ScoreTableRecord.from_vec_go] at hok
      exact absurd hok (by simp)

/-- C3 counterexample: the row whose second cell is formatted -1 parses
successfully into a record whose sport score is negative. -/
theorem from_vec_accepts_negative_score :
    ScoreTableRecord.from_vec negRow = .ok negRecord ∧ negRecord.scores.sport < 0 := by
  refine ⟨by decide, by norm_num [negRecord, ScoreTableRecord.new]⟩

/-- C3 amended: for every row that parses successfully and whose cells are
safe (no formatted value beginning with a minus sign, no negative effective
number value), each of the six category scores of the record is
nonnegative; the parser itself does not enforce nonnegativity. -/
theorem from_vec_scores_nonneg (row : List CellData) (rec : ScoreTableRecord)
    (hsafe : ∀ cell ∈ row, SafeScoreCell cell = true)
    (hok : ScoreTableRecord.from_vec row = .ok rec) :
    0 ≤ rec.scores.sport ∧ 0 ≤ rec.scores.professional_growth ∧
    0 ≤ rec.scores.health ∧ 0 ≤ rec.scores.spiritual_growth ∧
    0 ≤ rec.scores.foreign_language ∧ 0 ≤ rec.scores.personal_dev :=
  from_vec_go_nonneg row 0 NaiveDate.default Scores.defaultScores
    Scores.UNITITIALIZED_SCORE (Percentage.fromValue 0) rec hsafe
    (by refine ⟨?_, ?_, ?_, ?_, ?_, ?_⟩ <;> norm_num [Scores.defaultScores, Scores.UNITITIALIZED_SCORE])
    hok

/-- C3 witness: a concrete safe row and its record. -/
theorem from_vec_scores_nonneg_witness :
    0 ≤ nonnegWitnessRec.scores.sport ∧ 0 ≤ nonnegWitnessRec.scores.professional_growth ∧
    0 ≤ nonnegWitnessRec.scores.health ∧ 0 ≤ nonnegWitnessRec.scores.spiritual_growth ∧
    0 ≤ nonnegWitnessRec.scores.foreign_language ∧ 0 ≤ nonnegWitnessRec.scores.personal_dev :=
  from_vec_scores_nonneg nonnegWitnessRow nonnegWitnessRec (by decide) (by decide)

/-- C7: the score parse first reads the formatted value (parsed as a float;
absent counts as the uninitialized score 0), and only on a float parse
failure falls back to the effective number value when present, the parse
error being returned when that is absent too. -/
theorem parse_score_contract (cell : CellData) (index : Nat) :
    ScoreTableRecord.parse_score cell index =
      match cell.formatted_value with
      | some v =>
        match parseF64 v with
        | some q => .ok q
        | none =>
          match cell.effective_value with
          | some ev =>
            match ev.number_value with
            | some n => .ok n
            | none => .error (.ParseError (.ScoreParseError index))
          | none => .error (.ParseError (.ScoreParseError index))
      | none => .ok Scores.UNITITIALIZED_SCORE := by
  rcases cell with ⟨fv, ev, ef⟩
  rcases fv with _ | v
  · rfl
  · rcases hq : parseF64 v with _ | q
    · rcases ev with _ | ⟨nv⟩
      · simp [ScoreTableRecord.parse_score, hq]
      · rcases nv with _ | n <;> simp [ScoreTableRecord.parse_score, hq]
    · simp [ScoreTableRecord.parse_score, hq]

/-- C2 counterexample: a first block whose name cell is present but holds
the empty string does not terminate the loop; it yields a table for a
person with the empty name, so the resulting dashboard has one table, not
zero. -/
theorem loop_not_ended_by_empty_string_name :
    fetch_dashboard_loop [blockEmptyName, blockAbsentName] []
      = some (.ok (Dashboard.fromTables [ScoreTable.new (Person.new "") []])) ∧
    (Dashboard.fromTables [ScoreTable.new (Person.new "") []]).score_tables ≠ some [] := by
  refine ⟨by decide, by decide⟩

/-- C2 amended: the ingestion loop ends successfully with the tables
accumulated so far exactly when the first row first cell of the fetched
block has an absent formatted value; in particular on the very first block
this yields a dashboard with zero tables and no error. -/
theorem loop_ends_on_absent_name_cell
    (resp : Spreadsheet) (rest : List Spreadsheet) (tables : List ScoreTable)
    (sheet : Sheet) (grids : List GridData) (grid : GridData)
    (rows : List RowData) (row : RowData) (cells : List CellData) (cell : CellData)
    (h1 : resp.sheets = some [sheet])
    (h2 : sheet.data = some (grid :: grids))
    (h3 : grid.row_data = some (row :: rows))
    (h4 : row.values = some (cell :: cells))
    (h5 : cell.formatted_value = none) :
    fetch_dashboard_loop (resp :: rest) tables = some (.ok (Dashboard.fromTables tables)) := by
  have hfetch : fetch_score_table resp false
      = .error (.InvalidFetchedData .EmptyPersonNameCell) := by
    simp [fetch_score_table, h1, h2, h3, h4, h5]
  simp [fetch_dashboard_loop, hfetch]

/-- C2 witness: the very first block carries an absent name cell and the
loop returns the dashboard with zero tables. -/
theorem loop_ends_on_absent_name_cell_witness :
    fetch_dashboard_loop [blockAbsentName] [] = some (.ok (Dashboard.fromTables [])) :=
  loop_ends_on_absent_name_cell blockAbsentName [] [] _ _ _ _ _ _ _
    rfl rfl rfl rfl rfl

end CongratulatorBot
